import Mathlib

/-!
Verification of `src/backend/dotm_namespace.py` (DevOps-Trouble-Map).

The module defines a single class `DOTMNamespace` whose `__init__` builds
thirteen string fields (Redis key prefixes) from an optional `history_key`
argument.  We embed the record as a Lean structure and `__init__` as a pure
function on `Option String`.  The Python attribute `prefix` is a Lean keyword,
so the field is called `pfx` here; every other field keeps its Python name.
-/

/-- The value object built by `DOTMNamespace.__init__`: thirteen string
fields, one per Python instance attribute (`pfx` models the attribute
spelled p-r-e-f-i-x in the source). -/
structure DOTMNamespace where
  pfx : String
  queue : String
  history : String
  config : String
  state : String
  history_prefix : String
  nodes : String
  connections : String
  services : String
  resolver : String
  checks : String
  nodes_checks : String
  services_checks : String
deriving DecidableEq, Repr

/-- `DOTMNamespace.__init__(self, history_key=None)`, lines 9-31 of
`src/backend/dotm_namespace.py`.  The Python guard `if history_key:` is
truthy exactly when the argument is a present, non-empty string; the
`match` below reproduces that truthiness test.  Every concatenation keeps
the order and operands of the source line it embeds. -/
def DOTMNamespace.init (history_key : Option String) : DOTMNamespace :=
  let pfx := "dotm"
  let queue := pfx ++ "::queue"
  let history := pfx ++ "::history"
  let config := pfx ++ "::config"
  let state := pfx ++ "::state"
  let history_prefix :=
    match history_key with
    | some k => if k ≠ "" then k ++ "::" ++ pfx else pfx
    | none => pfx
  let nodes := history_prefix ++ "::nodes"
  let connections := history_prefix ++ "::connections"
  let services := history_prefix ++ "::services"
  let resolver := history_prefix ++ "::resolver"
  let checks := history_prefix ++ "::checks"
  let nodes_checks := checks ++ "::nodes"
  let services_checks := checks ++ "::services"
  { pfx := pfx, queue := queue, history := history, config := config,
    state := state, history_prefix := history_prefix, nodes := nodes,
    connections := connections, services := services, resolver := resolver,
    checks := checks, nodes_checks := nodes_checks,
    services_checks := services_checks }

/-- The thirteen fields of a namespace, in the order the constructor
assigns them.  Its codomain `List String` records that every field holds
a string. -/
def DOTMNamespace.fields (n : DOTMNamespace) : List String :=
  [n.pfx, n.queue, n.history, n.config, n.state, n.history_prefix,
   n.nodes, n.connections, n.services, n.resolver, n.checks,
   n.nodes_checks, n.services_checks]

/-- Strings of different lengths are different. -/
theorem ne_of_length_ne {a b : String} (h : String.length a ≠ String.length b) :
    a ≠ b :=
  fun e => h (congrArg String.length e)

/-- Right cancellation of string concatenation. -/
theorem append_cancel_right_str {a b c : String} (h : a ++ c = b ++ c) :
    a = b := by
  apply String.ext
  have hd := congrArg String.data h
  simp only [String.data_append] at hd
  exact List.append_cancel_right hd

/-- Closed form of the constructor on a present, non-empty history key:
every scoped field is the key followed by the corresponding live key. -/
theorem init_some_eq (h : String) (hne : h ≠ "") :
    DOTMNamespace.init (some h) =
      { pfx := "dotm", queue := "dotm::queue", history := "dotm::history",
        config := "dotm::config", state := "dotm::state",
        history_prefix := h ++ "::dotm", nodes := h ++ "::dotm::nodes",
        connections := h ++ "::dotm::connections",
        services := h ++ "::dotm::services",
        resolver := h ++ "::dotm::resolver",
        checks := h ++ "::dotm::checks",
        nodes_checks := h ++ "::dotm::checks::nodes",
        services_checks := h ++ "::dotm::checks::services" } := by
  simp [DOTMNamespace.init, hne, String.append_assoc]

/-- C1: constructing with no history key yields exactly the thirteen
field values of the live namespace, `pfx = "dotm"` through
`services_checks = "dotm::checks::services"`. -/
theorem construct_none_fields :
    DOTMNamespace.init none =
      { pfx := "dotm", queue := "dotm::queue", history := "dotm::history",
        config := "dotm::config", state := "dotm::state",
        history_prefix := "dotm", nodes := "dotm::nodes",
        connections := "dotm::connections", services := "dotm::services",
        resolver := "dotm::resolver", checks := "dotm::checks",
        nodes_checks := "dotm::checks::nodes",
        services_checks := "dotm::checks::services" } := by
  decide

/-- C2: for every non-empty history key `h` the constructed
`history_prefix` is `h ++ "::dotm"`; in particular for `"run42"` the
fields `history_prefix`, `nodes`, `checks` and `nodes_checks` are
`"run42::dotm"`, `"run42::dotm::nodes"`, `"run42::dotm::checks"` and
`"run42::dotm::checks::nodes"`. -/
theorem history_key_scoping (h : String) (hne : h ≠ "") :
    DOTMNamespace.history_prefix (DOTMNamespace.init (some h)) = h ++ "::dotm" ∧
    DOTMNamespace.history_prefix (DOTMNamespace.init (some "run42")) = "run42::dotm" ∧
    DOTMNamespace.nodes (DOTMNamespace.init (some "run42")) = "run42::dotm::nodes" ∧
    DOTMNamespace.checks (DOTMNamespace.init (some "run42")) = "run42::dotm::checks" ∧
    DOTMNamespace.nodes_checks (DOTMNamespace.init (some "run42")) =
      "run42::dotm::checks::nodes" := by
  refine ⟨?_, by decide, by decide, by decide, by decide⟩
  simp [init_some_eq h hne]

/-- Witness for C2 at the concrete key `"run42"`. -/
theorem history_key_scoping_witness :
    DOTMNamespace.history_prefix (DOTMNamespace.init (some "run42")) =
      "run42" ++ "::dotm" :=
  (history_key_scoping "run42" (by decide)).1

/-- C3: `queue`, `history`, `config` and `state` are the fixed live keys
`"dotm::queue"`, `"dotm::history"`, `"dotm::config"` and `"dotm::state"`
for every history-key argument, absent or any string. -/
theorem live_fields_constant (hk : Option String) :
    DOTMNamespace.queue (DOTMNamespace.init hk) = "dotm::queue" ∧
    DOTMNamespace.history (DOTMNamespace.init hk) = "dotm::history" ∧
    DOTMNamespace.config (DOTMNamespace.init hk) = "dotm::config" ∧
    DOTMNamespace.state (DOTMNamespace.init hk) = "dotm::state" :=
  ⟨rfl, rfl, rfl, rfl⟩

/-- C4 counterexample: supplying the empty string as history key does not
give the spec formula `history_key ++ "::" ++ "dotm"`; the constructor
treats a falsy (empty) key like an absent one. -/
theorem empty_key_literal_formula_fails :
    DOTMNamespace.history_prefix (DOTMNamespace.init (some "")) ≠
      "" ++ "::" ++ "dotm" := by
  decide

/-- C4 amended: for a supplied NON-EMPTY key the formula
`history_key ++ "::" ++ "dotm"` holds, while a supplied empty key and an
absent key both yield the bare `"dotm"`. -/
theorem history_prefix_formula (h : String) :
    (h ≠ "" →
      DOTMNamespace.history_prefix (DOTMNamespace.init (some h)) =
        h ++ "::" ++ "dotm") ∧
    DOTMNamespace.history_prefix (DOTMNamespace.init (some "")) = "dotm" ∧
    DOTMNamespace.history_prefix (DOTMNamespace.init none) = "dotm" := by
  refine ⟨fun hne => ?_, by decide, by decide⟩
  simp [init_some_eq h hne, String.append_assoc]

/-- Witness for the amended C4 at the concrete key `"x"`. -/
theorem history_prefix_formula_witness :
    DOTMNamespace.history_prefix (DOTMNamespace.init (some "x")) =
      "x" ++ "::" ++ "dotm" :=
  (history_prefix_formula "x").1 (by decide)

/-- C5: for every input, `nodes`, `connections`, `services`, `resolver`
and `checks` are `history_prefix` plus their suffix, and `nodes_checks`
and `services_checks` are `checks` plus their suffix. -/
theorem derived_field_equations (hk : Option String) :
    DOTMNamespace.nodes (DOTMNamespace.init hk) =
      DOTMNamespace.history_prefix (DOTMNamespace.init hk) ++ "::nodes" ∧
    DOTMNamespace.connections (DOTMNamespace.init hk) =
      DOTMNamespace.history_prefix (DOTMNamespace.init hk) ++ "::connections" ∧
    DOTMNamespace.services (DOTMNamespace.init hk) =
      DOTMNamespace.history_prefix (DOTMNamespace.init hk) ++ "::services" ∧
    DOTMNamespace.resolver (DOTMNamespace.init hk) =
      DOTMNamespace.history_prefix (DOTMNamespace.init hk) ++ "::resolver" ∧
    DOTMNamespace.checks (DOTMNamespace.init hk) =
      DOTMNamespace.history_prefix (DOTMNamespace.init hk) ++ "::checks" ∧
    DOTMNamespace.nodes_checks (DOTMNamespace.init hk) =
      DOTMNamespace.checks (DOTMNamespace.init hk) ++ "::nodes" ∧
    DOTMNamespace.services_checks (DOTMNamespace.init hk) =
      DOTMNamespace.checks (DOTMNamespace.init hk) ++ "::services" :=
  ⟨rfl, rfl, rfl, rfl, rfl, rfl, rfl⟩

/-- C6: construction is deterministic; equal inputs give field-for-field
identical namespaces. -/
theorem construct_deterministic (h₁ h₂ : Option String) (he : h₁ = h₂) :
    DOTMNamespace.fields (DOTMNamespace.init h₁) =
      DOTMNamespace.fields (DOTMNamespace.init h₂) := by
  rw [he]

/-- Witness for C6 at the concrete key `"run42"`. -/
theorem construct_deterministic_witness :
    DOTMNamespace.fields (DOTMNamespace.init (some "run42")) =
      DOTMNamespace.fields (DOTMNamespace.init (some "run42")) :=
  construct_deterministic (some "run42") (some "run42") rfl

/-- C7: construction is total; for every input the thirteen fields are
present, each holding a string (the codomain of
`DOTMNamespace.fields` is `List String`). -/
theorem construct_total_thirteen_fields (hk : Option String) :
    (DOTMNamespace.fields (DOTMNamespace.init hk)).length = 13 :=
  rfl

/-- C8: for every non-empty history key, every history-scoped field
differs from the corresponding field of the live (no-key) namespace, so
historical snapshots never collide with live keys. -/
theorem scoped_keys_avoid_live_keys (h : String) (hne : h ≠ "") :
    DOTMNamespace.history_prefix (DOTMNamespace.init (some h)) ≠
      DOTMNamespace.history_prefix (DOTMNamespace.init none) ∧
    DOTMNamespace.nodes (DOTMNamespace.init (some h)) ≠
      DOTMNamespace.nodes (DOTMNamespace.init none) ∧
    DOTMNamespace.connections (DOTMNamespace.init (some h)) ≠
      DOTMNamespace.connections (DOTMNamespace.init none) ∧
    DOTMNamespace.services (DOTMNamespace.init (some h)) ≠
      DOTMNamespace.services (DOTMNamespace.init none) ∧
    DOTMNamespace.resolver (DOTMNamespace.init (some h)) ≠
      DOTMNamespace.resolver (DOTMNamespace.init none) ∧
    DOTMNamespace.checks (DOTMNamespace.init (some h)) ≠
      DOTMNamespace.checks (DOTMNamespace.init none) ∧
    DOTMNamespace.nodes_checks (DOTMNamespace.init (some h)) ≠
      DOTMNamespace.nodes_checks (DOTMNamespace.init none) ∧
    DOTMNamespace.services_checks (DOTMNamespace.init (some h)) ≠
      DOTMNamespace.services_checks (DOTMNamespace.init none) := by
  refine ⟨?_, ?_, ?_, ?_, ?_, ?_, ?_, ?_⟩ <;>
  · apply ne_of_length_ne
    simp only [DOTMNamespace.init, hne, ne_eq, not_false_eq_true, if_true,
      String.length_append,
      show ("::" : String).length = 2 by decide,
      show ("dotm" : String).length = 4 by decide,
      show ("::nodes" : String).length = 7 by decide,
      show ("::connections" : String).length = 13 by decide,
      show ("::services" : String).length = 10 by decide,
      show ("::resolver" : String).length = 10 by decide,
      show ("::checks" : String).length = 8 by decide]
    omega

/-- Witness for C8 at the concrete key `"run42"`. -/
theorem scoped_keys_avoid_live_keys_witness :
    DOTMNamespace.history_prefix (DOTMNamespace.init (some "run42")) ≠
      DOTMNamespace.history_prefix (DOTMNamespace.init none) :=
  (scoped_keys_avoid_live_keys "run42" (by decide)).1

/-- C9: an empty history key is treated like an absent one; the two
constructions agree on every field. -/
theorem empty_key_like_absent :
    DOTMNamespace.init (some "") = DOTMNamespace.init none := by
  decide

/-- C10: distinct non-empty history keys give distinct `history_prefix`
values and distinct scoped fields: the scoping map is injective on
non-empty keys. -/
theorem scoped_key_injective (h₁ h₂ : String) (h1 : h₁ ≠ "") (h2 : h₂ ≠ "")
    (hne : h₁ ≠ h₂) :
    DOTMNamespace.history_prefix (DOTMNamespace.init (some h₁)) ≠
      DOTMNamespace.history_prefix (DOTMNamespace.init (some h₂)) ∧
    DOTMNamespace.nodes (DOTMNamespace.init (some h₁)) ≠
      DOTMNamespace.nodes (DOTMNamespace.init (some h₂)) ∧
    DOTMNamespace.connections (DOTMNamespace.init (some h₁)) ≠
      DOTMNamespace.connections (DOTMNamespace.init (some h₂)) ∧
    DOTMNamespace.services (DOTMNamespace.init (some h₁)) ≠
      DOTMNamespace.services (DOTMNamespace.init (some h₂)) ∧
    DOTMNamespace.resolver (DOTMNamespace.init (some h₁)) ≠
      DOTMNamespace.resolver (DOTMNamespace.init (some h₂)) ∧
    DOTMNamespace.checks (DOTMNamespace.init (some h₁)) ≠
      DOTMNamespace.checks (DOTMNamespace.init (some h₂)) ∧
    DOTMNamespace.nodes_checks (DOTMNamespace.init (some h₁)) ≠
      DOTMNamespace.nodes_checks (DOTMNamespace.init (some h₂)) ∧
    DOTMNamespace.services_checks (DOTMNamespace.init (some h₁)) ≠
      DOTMNamespace.services_checks (DOTMNamespace.init (some h₂)) := by
  refine ⟨?_, ?_, ?_, ?_, ?_, ?_, ?_, ?_⟩ <;>
  · intro e
    apply hne
    simp only [init_some_eq h₁ h1, init_some_eq h₂ h2] at e
    exact append_cancel_right_str e

/-- Witness for C10 at the concrete keys `"a"` and `"b"`. -/
theorem scoped_key_injective_witness :
    DOTMNamespace.history_prefix (DOTMNamespace.init (some "a")) ≠
      DOTMNamespace.history_prefix (DOTMNamespace.init (some "b")) :=
  (scoped_key_injective "a" "b" (by decide) (by decide) (by decide)).1
